import Mathlib

/-
Shallow embedding of djpwr-app-settings: the dict-like settings accessor
(AppSettingDict in djpwr_app_settings/__init__.py) and the admin glue
(SettingGroupAdmin in djpwr_app_settings/admin.py).

Python values that flow through the accessor are modelled by PyVal; the
relational store, the setting-group table and the binary storage backend
by World; framework behavior that the repository only calls into
(model/field resolution, storage I/O success or failure, storage name
allocation) by an oracle structure Env.  Exceptions are modelled with
Except over an explicit exception type PyExc; a caught exception is a
match arm, an uncaught one propagates as Except.error.
-/

/-- Python values relevant to the accessor: None, strings, booleans,
freshly uploaded File objects and FieldFile objects (FieldFile is a
subclass of File in Django; here they are separate constructors and
"isinstance File" corresponds to either one). Each file carries its
`.name` attribute. -/
inductive PyVal where
  | none
  | str (s : String)
  | bool (b : Bool)
  | file (name : String)
  | fieldFile (name : String)
deriving Repr, DecidableEq

/-- Python truthiness for the modelled values: None and False are falsy,
a string is truthy iff nonempty, and a (Field)File is truthy iff its
name is nonempty (Django File.__bool__ is bool(self.name)). -/
def truthy : PyVal → Bool
  | PyVal.none => false
  | PyVal.str s => !s.isEmpty
  | PyVal.bool b => b
  | PyVal.file n => !n.isEmpty
  | PyVal.fieldFile n => !n.isEmpty

/-- Exceptions that the code raises, catches or lets propagate. -/
inductive PyExc where
  | objectDoesNotExist
  | multipleObjectsReturned
  | programmingError
  | keyError (label : String)
  | valueError
  | permissionDenied
  | storageError
  | fieldDoesNotExist
deriving Repr, DecidableEq

/-- Kind of a Django model field, as far as the code inspects it:
an instance of FileField (which includes its subclasses) or anything
else. -/
inductive FieldKind where
  | fileField
  | otherField
deriving Repr, DecidableEq

/-- Django model metadata: the named fields of the model resolved from a
group name, as exposed by model._meta. -/
structure ModelMeta where
  fields : List (String × FieldKind)
deriving Repr, DecidableEq

/-- Model _meta.get_field: returns the field by name or raises
FieldDoesNotExist. -/
def ModelMeta.get_field (mm : ModelMeta) (n : String) : Except PyExc FieldKind :=
  match mm.fields.find? (fun p => p.1 == n) with
  | Option.some p => Except.ok p.2
  | Option.none => Except.error PyExc.fieldDoesNotExist

/-- One ApplicationSetting row: its group's group_name, its name and its
stored value. -/
structure SettingRow where
  groupName : String
  name : String
  value : PyVal
deriving Repr, DecidableEq

/-- One SettingGroup row: its group_name and last_modified stamp. -/
structure GroupRow where
  groupName : String
  lastModified : Nat
deriving Repr, DecidableEq

/-- The mutable world: the ApplicationSetting table, the SettingGroup
table and the set of names present in the default storage backend. -/
structure World where
  db : List SettingRow
  groups : List GroupRow
  stored : List String
deriving Repr, DecidableEq

/-- Oracle for the framework behavior the repository calls into:
djpwr.managers.get_model (may raise), whether the settings table is
missing (lookup raises ProgrammingError), which storage deletes / opens
/ saves raise, the name the storage backend actually assigns on save,
and the current time used for last_modified. -/
structure Env where
  getModel : String → Except PyExc ModelMeta
  tableMissing : Bool
  deleteRaises : String → Bool
  openRaises : String → Bool
  saveRaises : String → Bool
  saveName : String → String
  now : Nat

/-- The helper _setting_model_field: resolve the model from the group
name and look up the field, returning none if any exception occurs
(the source wraps both calls in one try/except Exception). -/
def setting_model_field (env : Env) (group_name setting_name : String) : Option FieldKind :=
  match env.getModel group_name with
  | Except.error _ => Option.none
  | Except.ok mm => (mm.get_field setting_name).toOption

/-- The helper _is_file_setting: true iff the resolved field is an
instance of FileField. -/
def is_file_setting (env : Env) (group_name setting_name : String) : Bool :=
  match setting_model_field env group_name setting_name with
  | Option.some FieldKind.fileField => true
  | _ => false

/-- Split a character list at every occurrence of a separator, keeping
empty pieces, with the semantics of Python str.split(sep): the empty
input gives one empty piece. -/
def splitOnChar (sep : Char) : List Char → List (List Char)
  | [] => [[]]
  | c :: rest =>
    let r := splitOnChar sep rest
    if c = sep then [] :: r
    else match r with
      | [] => [[c]]
      | h :: t => (c :: h) :: t

/-- os.path.basename for slash-separated paths: the part after the last
slash. -/
def basename (p : String) : String :=
  String.mk ((splitOnChar '/' p.toList).getLastD [])

/-- The helper _storage_path_for: basename of the filename (or "upload"
when that is empty) under app_settings/app/model/setting/. -/
def storage_path_for (app_label model_name setting_name filename : String) : String :=
  let base := basename filename
  let base := if base.isEmpty then "upload" else base
  "app_settings/" ++ app_label ++ "/" ++ model_name ++ "/" ++ setting_name ++ "/" ++ base

/-- Raw default_storage.delete: raises when the oracle says so,
otherwise removes the name from the backend. -/
def storageDelete (env : Env) (stored : List String) (s : String) :
    Except PyExc (List String) :=
  if env.deleteRaises s then Except.error PyExc.storageError
  else Except.ok (stored.filter (fun x => x != s))

/-- Raw default_storage.save: raises when the oracle says so, otherwise
stores under the backend-chosen available name and returns that name. -/
def storageSave (env : Env) (stored : List String) (path : String) :
    Except PyExc (String × List String) :=
  if env.saveRaises path then Except.error PyExc.storageError
  else Except.ok (env.saveName path, env.saveName path :: stored)

/-- The helper _delete_storage_name: no-op on a falsy name, otherwise
delete from storage swallowing every exception (a non-string truthy
argument makes the delete raise, which is likewise swallowed). Its
result is the new storage contents; it never raises. -/
def delete_storage_name (env : Env) (stored : List String) (v : PyVal) : List String :=
  if !truthy v then stored
  else match v with
    | PyVal.str s =>
      match storageDelete env stored s with
      | Except.ok stored2 => stored2
      | Except.error _ => stored
    | _ => stored

/-- The helper _extract_storage_value: the .name of a File or FieldFile
(empty string when absent), any other value unchanged. -/
def extract_storage_value : PyVal → PyVal
  | PyVal.file n => PyVal.str n
  | PyVal.fieldFile n => PyVal.str n
  | v => v

/-- The helper _open_as_django_file: None on a falsy storage name,
otherwise open from storage and wrap as a File named by the storage
name; any exception while opening (missing file, I/O error, non-string
name) yields None. It never raises. -/
def open_as_django_file (env : Env) (stored : List String) (v : PyVal) : PyVal :=
  if !truthy v then PyVal.none
  else match v with
    | PyVal.str s =>
      if stored.contains s && !env.openRaises s then PyVal.file s
      else PyVal.none
    | _ => PyVal.none

/-- Does a row match the (group_name, name) key? -/
def dbMatches (g n : String) (r : SettingRow) : Bool :=
  r.groupName == g && r.name == n

/-- Django manager .get on ApplicationSetting filtered by
(group__group_name, name): the unique matching row, DoesNotExist when
there is none, MultipleObjectsReturned when there are several. -/
def dbGet (db : List SettingRow) (g n : String) : Except PyExc SettingRow :=
  match db.filter (dbMatches g n) with
  | [] => Except.error PyExc.objectDoesNotExist
  | [r] => Except.ok r
  | _ => Except.error PyExc.multipleObjectsReturned

/-- The row lookup as the accessor performs it: raises ProgrammingError
when the table is missing (migrations not run), else a manager .get. -/
def lookupRow (env : Env) (db : List SettingRow) (g n : String) :
    Except PyExc SettingRow :=
  if env.tableMissing then Except.error PyExc.programmingError
  else dbGet db g n

/-- setting.save() after assigning setting.value: update the value of
every row matching the key (the lookup guarantees there is exactly
one). -/
def dbSet (db : List SettingRow) (g n : String) (v : PyVal) : List SettingRow :=
  db.map (fun r => if dbMatches g n r then { r with value := v } else r)

/-- SettingGroup manager touch_last_modified: stamp the group row with
the current time. -/
def touch_last_modified (env : Env) (groups : List GroupRow) (g : String) :
    List GroupRow :=
  groups.map (fun gr => if gr.groupName == g then { gr with lastModified := env.now } else gr)

/-- Python `app_label, model_name, setting_name = label.split(".")`:
some triple when the label has exactly three dot-separated parts,
otherwise the unpacking raises ValueError. -/
def splitLabel (label : String) : Option (String × String × String) :=
  match splitOnChar '.' label.toList with
  | [a, m, s] => Option.some (String.mk a, String.mk m, String.mk s)
  | _ => Option.none

namespace AppSettingDict

/-- Body of AppSettingDict.__getitem__ after the label split: look up
the row (ProgrammingError is caught, logged and turned into a plain
None return; DoesNotExist is caught and re-raised as KeyError(label));
for a FileField setting return the stored path opened from storage as a
File, otherwise the raw stored value. -/
def getitemCore (env : Env) (w : World) (g n label : String) : Except PyExc PyVal :=
  match lookupRow env w.db g n with
  | Except.error PyExc.programmingError => Except.ok PyVal.none
  | Except.error PyExc.objectDoesNotExist => Except.error (PyExc.keyError label)
  | Except.error e => Except.error e
  | Except.ok setting =>
    if is_file_setting env g n then
      Except.ok (open_as_django_file env w.stored (extract_storage_value setting.value))
    else
      Except.ok setting.value

/-- AppSettingDict.__getitem__. -/
def getitem (env : Env) (w : World) (label : String) : Except PyExc PyVal :=
  match splitLabel label with
  | Option.none => Except.error PyExc.valueError
  | Option.some (a, m, s) => getitemCore env w (a ++ "." ++ m) s label

/-- Is the assigned value a newly uploaded file, i.e. an instance of
File that is not a FieldFile? -/
def isNewUpload : PyVal → Bool
  | PyVal.file _ => true
  | _ => false

/-- The .name attribute of a file value (only consulted on the upload
branch). -/
def fileNameOf : PyVal → String
  | PyVal.file n => n
  | PyVal.fieldFile n => n
  | _ => ""

/-- AppSettingDict.__setitem__.  Effects are threaded through the
returned World; the Except component is the raised exception, if any.
The lookup's exceptions are not caught here and propagate; a storage
save failure propagates after the touch and the old-file delete have
already taken effect. -/
def setitem (env : Env) (w : World) (label : String) (value : PyVal) :
    World × Except PyExc Unit :=
  match splitLabel label with
  | Option.none => (w, Except.error PyExc.valueError)
  | Option.some (a, m, s) =>
    let g := a ++ "." ++ m
    match lookupRow env w.db g s with
    | Except.error e => (w, Except.error e)
    | Except.ok setting =>
      let groups1 := touch_last_modified env w.groups setting.groupName
      let old := extract_storage_value setting.value
      if isNewUpload value then
        let stored1 := delete_storage_name env w.stored old
        let path := storage_path_for a m s (fileNameOf value)
        match storageSave env stored1 path with
        | Except.error e => ({ w with groups := groups1, stored := stored1 }, Except.error e)
        | Except.ok (saved, stored2) =>
          ({ db := dbSet w.db g s (PyVal.str saved), groups := groups1, stored := stored2 },
           Except.ok ())
      else
        let stored1 :=
          if !truthy value && is_file_setting env g s then
            delete_storage_name env w.stored old
          else w.stored
        ({ db := dbSet w.db g s value, groups := groups1, stored := stored1 },
         Except.ok ())

/-- AppSettingDict.get: __getitem__, with KeyError caught and turned
into the supplied default; every other outcome passes through. -/
def get (env : Env) (w : World) (label : String) (default : PyVal) :
    Except PyExc PyVal :=
  match getitem env w label with
  | Except.error (PyExc.keyError _) => Except.ok default
  | r => r

/-- AppSettingDict.__contains__: False exactly on KeyError, True when
__getitem__ returns; every other exception propagates. -/
def contains (env : Env) (w : World) (label : String) : Except PyExc Bool :=
  match getitem env w label with
  | Except.error (PyExc.keyError _) => Except.ok false
  | Except.ok _ => Except.ok true
  | Except.error e => Except.error e

end AppSettingDict

namespace SettingGroupAdmin

/-- An admin view a URL pattern can dispatch to.  get_urls only ever
registers the change view. -/
inductive AdminView where
  | changeView
deriving Repr, DecidableEq

/-- One entry of the urlpatterns list returned by get_urls: the route
string, the wrapped view and the registered name. -/
structure UrlPattern where
  route : String
  view : AdminView
  name : String
deriving Repr, DecidableEq

/-- An incoming HTTP request, as far as the modelled admin code reads
it: whether the method is POST. -/
structure Request where
  isPost : Bool
deriving Repr, DecidableEq

/-- SettingGroupAdmin.get_urls: both the change name and the changelist
name are registered on the empty route to the change view. -/
def get_urls (app_label model_name : String) : List UrlPattern :=
  [ { route := "", view := AdminView.changeView,
      name := app_label ++ "_" ++ model_name ++ "_change" },
    { route := "", view := AdminView.changeView,
      name := app_label ++ "_" ++ model_name ++ "_changelist" } ]

/-- SettingGroupAdmin.has_add_permission: always False. -/
def has_add_permission (_req : Request) : Bool :=
  false

/-- Per-request admin context the framework supplies to save_model and
the changeform view: the model's internal field names, its _meta (for
obj._meta.get_field), form validity, formset validity, the permission
checks and the form's cleaned_data in iteration order. -/
structure AdminCtx where
  internalFields : List String
  meta : ModelMeta
  formValid : Bool
  formsetsValid : Bool
  hasChange : Bool
  hasViewOrChange : Bool
  cleaned : List (String × PyVal)

/-- SettingGroupAdmin.save_model over the cleaned_data items: skip
internal fields; for a FileField a cleaned value of False writes None
through the accessor (clear) and any other falsy value is skipped
(keep); everything else is written through the accessor.  An exception
from field resolution or from the accessor write propagates with the
effects performed so far. -/
def save_model (env : Env) (ctx : AdminCtx) (group_name : String)
    (cleaned : List (String × PyVal)) (w : World) : World × Except PyExc Unit :=
  match cleaned with
  | [] => (w, Except.ok ())
  | (field_name, value) :: rest =>
    if ctx.internalFields.contains field_name then
      save_model env ctx group_name rest w
    else
      match ctx.meta.get_field field_name with
      | Except.error e => (w, Except.error e)
      | Except.ok field =>
        let label := group_name ++ "." ++ field_name
        match field with
        | FieldKind.fileField =>
          if value = PyVal.bool false then
            match AppSettingDict.setitem env w label PyVal.none with
            | (w2, Except.ok _) => save_model env ctx group_name rest w2
            | (w2, Except.error e) => (w2, Except.error e)
          else if !truthy value then
            save_model env ctx group_name rest w
          else
            match AppSettingDict.setitem env w label value with
            | (w2, Except.ok _) => save_model env ctx group_name rest w2
            | (w2, Except.error e) => (w2, Except.error e)
        | FieldKind.otherField =>
          match AppSettingDict.setitem env w label value with
          | (w2, Except.ok _) => save_model env ctx group_name rest w2
          | (w2, Except.error e) => (w2, Except.error e)

/-- The responses the modelled changeform view can produce. -/
inductive Response where
  | changed
  | rendered
deriving Repr, DecidableEq

/-- Django transaction.atomic around a stateful body: on success keep
all effects; on an exception roll back the relational tables (db and
groups) to their state at entry, while storage-backend effects, which
are not transactional, persist. -/
def atomic (w : World) (body : World → World × Except PyExc Response) :
    World × Except PyExc Response :=
  match body w with
  | (w2, Except.ok r) => (w2, Except.ok r)
  | (w2, Except.error e) => ({ w2 with db := w.db, groups := w.groups }, Except.error e)

/-- SettingGroup manager .get by group_name. -/
def groupGet (groups : List GroupRow) (g : String) : Except PyExc GroupRow :=
  match groups.filter (fun gr => gr.groupName == g) with
  | [] => Except.error PyExc.objectDoesNotExist
  | [gr] => Except.ok gr
  | _ => Except.error PyExc.multipleObjectsReturned

/-- Body of SettingGroupAdmin._changeform_view, restricted to its
state-relevant skeleton: fetch the singleton SettingGroup row, enforce
the permission checks, and on a valid POST run save_model (rendering,
form hydration, logging and the response objects are framework calls
with no settings-state effect and are abstracted into the Response
constructors). -/
def changeform_view_body (env : Env) (ctx : AdminCtx) (group_name : String)
    (req : Request) (w : World) : World × Except PyExc Response :=
  match groupGet w.groups group_name with
  | Except.error e => (w, Except.error e)
  | Except.ok _ =>
    if req.isPost then
      if !ctx.hasChange then (w, Except.error PyExc.permissionDenied)
      else if ctx.formValid && ctx.formsetsValid then
        match save_model env ctx group_name ctx.cleaned w with
        | (w2, Except.ok _) => (w2, Except.ok Response.changed)
        | (w2, Except.error e) => (w2, Except.error e)
      else (w, Except.ok Response.rendered)
    else
      if !ctx.hasViewOrChange then (w, Except.error PyExc.permissionDenied)
      else (w, Except.ok Response.rendered)

/-- SettingGroupAdmin.changeform_view: the whole request body runs
inside one transaction.atomic block. -/
def changeform_view (env : Env) (ctx : AdminCtx) (group_name : String)
    (req : Request) (w : World) : World × Except PyExc Response :=
  atomic w (changeform_view_body env ctx group_name req)

end SettingGroupAdmin

/-- A concrete model for tests and witnesses: a FileField "logo" and a
plain field "title". -/
def mmTest : ModelMeta :=
  { fields := [("logo", FieldKind.fileField), ("title", FieldKind.otherField)] }

/-- A concrete oracle with no failures: the shop.config group resolves
to mmTest, the table exists, storage never raises and save keeps the
requested path. -/
def envTest : Env :=
  { getModel := fun g => if g == "shop.config" then Except.ok mmTest
                         else Except.error PyExc.objectDoesNotExist,
    tableMissing := false,
    deleteRaises := fun _ => false,
    openRaises := fun _ => false,
    saveRaises := fun _ => false,
    saveName := fun p => p,
    now := 7 }

/-- The oracle with the settings table missing: any row lookup raises
ProgrammingError. -/
def envMissingTable : Env :=
  { envTest with tableMissing := true }

/-- A concrete world: one group with a logo file setting and a title
setting, the logo's old file present in storage. -/
def wTest : World :=
  { db := [ { groupName := "shop.config", name := "logo",
              value := PyVal.str "app_settings/shop/config/logo/old.png" },
            { groupName := "shop.config", name := "title",
              value := PyVal.str "Hello" } ],
    groups := [ { groupName := "shop.config", lastModified := 0 } ],
    stored := ["app_settings/shop/config/logo/old.png"] }

/-- The world with empty tables and empty storage. -/
def wEmpty : World :=
  { db := [], groups := [], stored := [] }

/-- A concrete admin context for the shop.config group. -/
def ctxTest : SettingGroupAdmin.AdminCtx :=
  { internalFields := ["group_name", "last_modified"],
    meta := mmTest,
    formValid := true,
    formsetsValid := true,
    hasChange := true,
    hasViewOrChange := true,
    cleaned := [("logo", PyVal.bool false), ("title", PyVal.str "New")] }

/-- The oracle whose storage delete always raises. -/
def envDeleteFails : Env :=
  { envTest with deleteRaises := fun _ => true }

/-- The oracle whose storage open always raises. -/
def envOpenFails : Env :=
  { envTest with openRaises := fun _ => true }

/-- The oracle whose storage save always raises. -/
def envSaveFails : Env :=
  { envTest with saveRaises := fun _ => true }

/-- A world with a duplicated logo row, making the manager .get raise
MultipleObjectsReturned. -/
def wDup : World :=
  { db := [ { groupName := "shop.config", name := "logo", value := PyVal.none },
            { groupName := "shop.config", name := "logo", value := PyVal.none } ],
    groups := [ { groupName := "shop.config", lastModified := 0 } ],
    stored := [] }

/-- A world whose SettingGroup row exists but whose ApplicationSetting
table is empty, so a changeform POST fails mid-save. -/
def wGroupsOnly : World :=
  { db := [],
    groups := [ { groupName := "shop.config", lastModified := 0 } ],
    stored := [] }

/-- A successful manager .get pins down the row: it matches the key, it
is in the table, and it is the only matching row. -/
lemma dbGet_ok_unique {db : List SettingRow} {g n : String} {r : SettingRow}
    (h : dbGet db g n = Except.ok r) :
    dbMatches g n r = true ∧ r ∈ db ∧ (db.filter (dbMatches g n)).length = 1 := by
  unfold dbGet at h
  rcases hf : db.filter (dbMatches g n) with _ | ⟨r1, _ | ⟨r2, t⟩⟩
  · rw [hf] at h; exact absurd h (by simp)
  · rw [hf] at h
    have hr : r1 = r := by
      simpa using h
    subst hr
    have hmem : r1 ∈ db.filter (dbMatches g n) := by
      rw [hf]; exact List.mem_singleton.mpr rfl
    rw [List.mem_filter] at hmem
    exact ⟨hmem.2, hmem.1, by simp [hf]⟩
  · rw [hf] at h; exact absurd h (by simp)

/-- A successful lookup is a successful manager .get (the table was not
missing). -/
lemma lookupRow_ok {env : Env} {db : List SettingRow} {g n : String} {r : SettingRow}
    (h : lookupRow env db g n = Except.ok r) :
    env.tableMissing = false ∧ dbGet db g n = Except.ok r := by
  unfold lookupRow at h
  cases hm : env.tableMissing
  · rw [hm] at h; simp at h; exact ⟨rfl, h⟩
  · rw [hm] at h; simp at h

/-- C2: a setting is treated as a file-upload setting iff the model
resolved from the group name has a field of the setting's name that is
a FileField instance; any exception during resolution (model or field)
makes it a non-file setting. -/
theorem C2_file_setting_introspection (env : Env) (g n : String) :
    is_file_setting env g n = true ↔
      ∃ mm, env.getModel g = Except.ok mm ∧
        mm.get_field n = Except.ok FieldKind.fileField := by
  unfold is_file_setting setting_model_field
  cases hm : env.getModel g with
  | error e => simp [hm]
  | ok mm =>
    cases hf : mm.get_field n with
    | error e => simp [hm, hf, Except.toOption]
    | ok k => cases k <;> simp [hm, hf, Except.toOption]

/-- C7: the admin registers both the change and the changelist URL names
on the same (change) view, so there is one editing page and no list
page, and has_add_permission is always False so no group can be added
through the admin. -/
theorem C7_singleton_admin_page (app_label model_name : String) :
    (SettingGroupAdmin.get_urls app_label model_name).map SettingGroupAdmin.UrlPattern.view =
      [SettingGroupAdmin.AdminView.changeView, SettingGroupAdmin.AdminView.changeView] ∧
    (SettingGroupAdmin.get_urls app_label model_name).map SettingGroupAdmin.UrlPattern.name =
      [app_label ++ "_" ++ model_name ++ "_change",
       app_label ++ "_" ++ model_name ++ "_changelist"] ∧
    (∀ req : SettingGroupAdmin.Request, SettingGroupAdmin.has_add_permission req = false) :=
  ⟨rfl, rfl, fun _ => rfl⟩

/-- C9: _delete_storage_name is total: it does nothing on a falsy name,
it swallows a raising storage delete, and the success/failure outcome
of every __setitem__ call is unchanged under any change of the storage
delete's failure behavior, so no settings write can fail because of a
storage delete error. -/
theorem C9_delete_storage_total (env : Env) (stored : List String) (v : PyVal) :
    (truthy v = false → delete_storage_name env stored v = stored) ∧
    (∀ s, env.deleteRaises s = true →
       delete_storage_name env stored (PyVal.str s) = stored) ∧
    (∀ f w label value,
       (AppSettingDict.setitem env w label value).2 =
       (AppSettingDict.setitem { env with deleteRaises := f } w label value).2) := by
  refine ⟨?_, ?_, ?_⟩
  · intro h
    unfold delete_storage_name
    rw [h]
    rfl
  · intro s h
    simp [delete_storage_name, storageDelete, h]
  · intro f w label value
    cases hs : splitLabel label with
    | none => simp [AppSettingDict.setitem, hs]
    | some t =>
      rcases t with ⟨a, m, s⟩
      simp only [AppSettingDict.setitem, hs]
      have hl : lookupRow { env with deleteRaises := f } w.db (a ++ "." ++ m) s =
          lookupRow env w.db (a ++ "." ++ m) s := rfl
      rw [hl]
      cases hr : lookupRow env w.db (a ++ "." ++ m) s with
      | error e => rfl
      | ok setting =>
        cases hu : AppSettingDict.isNewUpload value with
        | true =>
          simp only [hu]
          cases hsr : env.saveRaises
              (storage_path_for a m s (AppSettingDict.fileNameOf value)) with
          | true => simp [storageSave, hsr]
          | false => simp [storageSave, hsr]
        | false => simp [hu]

/-- C10: with the settings table missing, the row lookup's
ProgrammingError is caught: __getitem__ logs and returns None, get
returns None regardless of the supplied default, and containment tests
True even though no row was read. -/
theorem C10_missing_table_degraded (env : Env) (w : World) (label : String)
    (a m s : String) (d : PyVal)
    (hm : env.tableMissing = true)
    (hs : splitLabel label = Option.some (a, m, s)) :
    AppSettingDict.getitem env w label = Except.ok PyVal.none ∧
    AppSettingDict.get env w label d = Except.ok PyVal.none ∧
    AppSettingDict.contains env w label = Except.ok true := by
  have hg : AppSettingDict.getitem env w label = Except.ok PyVal.none := by
    unfold AppSettingDict.getitem AppSettingDict.getitemCore lookupRow
    rw [hs, hm]
    rfl
  refine ⟨hg, ?_, ?_⟩
  · unfold AppSettingDict.get
    rw [hg]
  · unfold AppSettingDict.contains
    rw [hg]

/-- C10 witness: the concrete missing-table oracle on the logo label
with a non-None default. -/
theorem C10_missing_table_degraded_witness :
    AppSettingDict.getitem envMissingTable wTest "shop.config.logo" = Except.ok PyVal.none ∧
    AppSettingDict.get envMissingTable wTest "shop.config.logo" (PyVal.str "fallback") =
      Except.ok PyVal.none ∧
    AppSettingDict.contains envMissingTable wTest "shop.config.logo" = Except.ok true :=
  C10_missing_table_degraded envMissingTable wTest "shop.config.logo"
    "shop" "config" "logo" (PyVal.str "fallback") rfl rfl

/-- C9 witness: a falsy name is a no-op, a raising delete is swallowed,
and a concrete clear of the logo setting has the same outcome whether
or not the storage delete raises. -/
theorem C9_delete_storage_total_witness :
    delete_storage_name envTest ["a.png"] PyVal.none = ["a.png"] ∧
    delete_storage_name envDeleteFails ["a.png"] (PyVal.str "a.png") = ["a.png"] ∧
    (AppSettingDict.setitem envTest wTest "shop.config.logo" PyVal.none).2 =
      (AppSettingDict.setitem { envTest with deleteRaises := fun _ => true }
        wTest "shop.config.logo" PyVal.none).2 :=
  ⟨(C9_delete_storage_total envTest ["a.png"] PyVal.none).1 rfl,
   (C9_delete_storage_total envDeleteFails ["a.png"] PyVal.none).2.1 "a.png" rfl,
   (C9_delete_storage_total envTest [] PyVal.none).2.2 (fun _ => true)
     wTest "shop.config.logo" PyVal.none⟩

/-- C4 as stated is false: on a label without exactly three dot-parts,
__getitem__ raises ValueError, which is not a KeyError, and
__contains__ does not return True (nor False): it propagates the
ValueError. -/
theorem C4_counterexample :
    AppSettingDict.getitem envTest wTest "x" = Except.error PyExc.valueError ∧
    AppSettingDict.contains envTest wTest "x" = Except.error PyExc.valueError ∧
    (Except.error PyExc.valueError : Except PyExc Bool) ≠ Except.ok true := by
  refine ⟨rfl, rfl, ?_⟩
  intro h
  exact Except.noConfusion h

/-- C4 amended: get returns __getitem__'s value on success and the
default exactly on KeyError; __contains__ returns True on success and
False exactly on KeyError; any other exception propagates unchanged
through both. -/
theorem C4_dict_accessor_semantics (env : Env) (w : World) (label : String) (d : PyVal) :
    (∀ v, AppSettingDict.getitem env w label = Except.ok v →
       AppSettingDict.get env w label d = Except.ok v ∧
       AppSettingDict.contains env w label = Except.ok true) ∧
    (∀ l2, AppSettingDict.getitem env w label = Except.error (PyExc.keyError l2) →
       AppSettingDict.get env w label d = Except.ok d ∧
       AppSettingDict.contains env w label = Except.ok false) ∧
    (∀ e, AppSettingDict.getitem env w label = Except.error e →
       (∀ l2, e ≠ PyExc.keyError l2) →
       AppSettingDict.get env w label d = Except.error e ∧
       AppSettingDict.contains env w label = Except.error e) := by
  refine ⟨fun v h => ?_, fun l2 h => ?_, fun e h h2 => ?_⟩
  · constructor <;> simp [AppSettingDict.get, AppSettingDict.contains, h]
  · constructor <;> simp [AppSettingDict.get, AppSettingDict.contains, h]
  · cases e with
    | keyError l => exact absurd rfl (h2 l)
    | objectDoesNotExist =>
      constructor <;> simp [AppSettingDict.get, AppSettingDict.contains, h]
    | multipleObjectsReturned =>
      constructor <;> simp [AppSettingDict.get, AppSettingDict.contains, h]
    | programmingError =>
      constructor <;> simp [AppSettingDict.get, AppSettingDict.contains, h]
    | valueError =>
      constructor <;> simp [AppSettingDict.get, AppSettingDict.contains, h]
    | permissionDenied =>
      constructor <;> simp [AppSettingDict.get, AppSettingDict.contains, h]
    | storageError =>
      constructor <;> simp [AppSettingDict.get, AppSettingDict.contains, h]
    | fieldDoesNotExist =>
      constructor <;> simp [AppSettingDict.get, AppSettingDict.contains, h]

/-- C4 witness: success passes the stored title through, a missing row
yields the default and False, and a duplicated row propagates
MultipleObjectsReturned through get and containment. -/
theorem C4_dict_accessor_semantics_witness :
    (AppSettingDict.get envTest wTest "shop.config.title" (PyVal.str "d") =
       Except.ok (PyVal.str "Hello") ∧
     AppSettingDict.contains envTest wTest "shop.config.title" = Except.ok true) ∧
    (AppSettingDict.get envTest wEmpty "shop.config.title" (PyVal.str "d") =
       Except.ok (PyVal.str "d") ∧
     AppSettingDict.contains envTest wEmpty "shop.config.title" = Except.ok false) ∧
    (AppSettingDict.get envTest wDup "shop.config.logo" (PyVal.str "d") =
       Except.error PyExc.multipleObjectsReturned ∧
     AppSettingDict.contains envTest wDup "shop.config.logo" =
       Except.error PyExc.multipleObjectsReturned) :=
  ⟨(C4_dict_accessor_semantics envTest wTest "shop.config.title" (PyVal.str "d")).1
      (PyVal.str "Hello") rfl,
   (C4_dict_accessor_semantics envTest wEmpty "shop.config.title" (PyVal.str "d")).2.1
      "shop.config.title" rfl,
   (C4_dict_accessor_semantics envTest wDup "shop.config.logo" (PyVal.str "d")).2.2
      PyExc.multipleObjectsReturned rfl (fun _ h => PyExc.noConfusion h)⟩

/-- C5 as stated is false: a lookup of a setting label whose row does
not exist is neither swallowed nor propagated as the framework's
missing-row exception; __getitem__ translates it into KeyError(label). -/
theorem C5_counterexample :
    AppSettingDict.getitem envTest wEmpty "shop.config.logo" =
      Except.error (PyExc.keyError "shop.config.logo") ∧
    PyExc.keyError "shop.config.logo" ≠ PyExc.objectDoesNotExist :=
  ⟨rfl, fun h => PyExc.noConfusion h⟩

/-- C5 amended: the missing-row exception is translated to
KeyError(label); the missing-table ProgrammingError is swallowed (None
is returned); a MultipleObjectsReturned from the lookup and a storage
save failure in a file write propagate verbatim. -/
theorem C5_error_propagation :
    (∀ env w label a m s,
       splitLabel label = Option.some (a, m, s) →
       lookupRow env w.db (a ++ "." ++ m) s = Except.error PyExc.objectDoesNotExist →
       AppSettingDict.getitem env w label = Except.error (PyExc.keyError label)) ∧
    (∀ env w label a m s,
       splitLabel label = Option.some (a, m, s) →
       lookupRow env w.db (a ++ "." ++ m) s = Except.error PyExc.programmingError →
       AppSettingDict.getitem env w label = Except.ok PyVal.none) ∧
    (∀ env w label a m s,
       splitLabel label = Option.some (a, m, s) →
       lookupRow env w.db (a ++ "." ++ m) s = Except.error PyExc.multipleObjectsReturned →
       AppSettingDict.getitem env w label = Except.error PyExc.multipleObjectsReturned) ∧
    (∀ (env : Env) w label a m s row fn,
       splitLabel label = Option.some (a, m, s) →
       lookupRow env w.db (a ++ "." ++ m) s = Except.ok row →
       env.saveRaises (storage_path_for a m s fn) = true →
       (AppSettingDict.setitem env w label (PyVal.file fn)).2 =
         Except.error PyExc.storageError) := by
  refine ⟨?_, ?_, ?_, ?_⟩
  · intro env w label a m s hs hr
    simp only [AppSettingDict.getitem, AppSettingDict.getitemCore, hs]
    rw [hr]
  · intro env w label a m s hs hr
    simp only [AppSettingDict.getitem, AppSettingDict.getitemCore, hs]
    rw [hr]
  · intro env w label a m s hs hr
    simp only [AppSettingDict.getitem, AppSettingDict.getitemCore, hs]
    rw [hr]
  · intro env w label a m s row fn hs hr hsr
    simp only [AppSettingDict.setitem, hs]
    rw [hr]
    simp [AppSettingDict.isNewUpload, AppSettingDict.fileNameOf, storageSave, hsr]

/-- C5 witness: the four propagation behaviors at concrete inputs. -/
theorem C5_error_propagation_witness :
    AppSettingDict.getitem envTest wEmpty "shop.config.title" =
      Except.error (PyExc.keyError "shop.config.title") ∧
    AppSettingDict.getitem envMissingTable wTest "shop.config.title" = Except.ok PyVal.none ∧
    AppSettingDict.getitem envTest wDup "shop.config.logo" =
      Except.error PyExc.multipleObjectsReturned ∧
    (AppSettingDict.setitem envSaveFails wTest "shop.config.logo" (PyVal.file "n.png")).2 =
      Except.error PyExc.storageError :=
  ⟨C5_error_propagation.1 envTest wEmpty "shop.config.title" "shop" "config" "title" rfl rfl,
   C5_error_propagation.2.1 envMissingTable wTest "shop.config.title"
     "shop" "config" "title" rfl rfl,
   C5_error_propagation.2.2.1 envTest wDup "shop.config.logo" "shop" "config" "logo" rfl rfl,
   C5_error_propagation.2.2.2 envSaveFails wTest "shop.config.logo" "shop" "config" "logo"
     ((wTest.db).headD { groupName := "", name := "", value := PyVal.none }) "n.png" rfl rfl rfl⟩

/-- C6: reading a FileField setting extracts the stored storage-path
string from the row's value (the .name of a File or FieldFile, any
other value as is) and returns, without ever raising, the storage file
wrapped as a File named by that path, or None when the extracted name
is falsy, missing from storage, or opening raises. -/
theorem C6_file_read (env : Env) (w : World) (label a m s : String) (row : SettingRow)
    (hs : splitLabel label = Option.some (a, m, s))
    (hr : lookupRow env w.db (a ++ "." ++ m) s = Except.ok row)
    (hf : is_file_setting env (a ++ "." ++ m) s = true) :
    AppSettingDict.getitem env w label =
      Except.ok (open_as_django_file env w.stored (extract_storage_value row.value)) ∧
    (∀ fn, extract_storage_value (PyVal.file fn) = PyVal.str fn) ∧
    (∀ fn, extract_storage_value (PyVal.fieldFile fn) = PyVal.str fn) ∧
    (∀ v, truthy v = false → open_as_django_file env w.stored v = PyVal.none) ∧
    (∀ nm, env.openRaises nm = true →
       open_as_django_file env w.stored (PyVal.str nm) = PyVal.none) ∧
    (∀ nm, w.stored.contains nm = false →
       open_as_django_file env w.stored (PyVal.str nm) = PyVal.none) ∧
    (∀ nm, truthy (PyVal.str nm) = true → w.stored.contains nm = true →
       env.openRaises nm = false →
       open_as_django_file env w.stored (PyVal.str nm) = PyVal.file nm) := by
  refine ⟨?_, fun fn => rfl, fun fn => rfl, ?_, ?_, ?_, ?_⟩
  · simp only [AppSettingDict.getitem, AppSettingDict.getitemCore, hs]
    rw [hr]
    simp [hf]
  · intro v hv
    unfold open_as_django_file
    rw [hv]
    rfl
  · intro nm ho
    simp [open_as_django_file, ho]
  · intro nm hm
    have hmem : nm ∉ w.stored := by simpa using hm
    simp [open_as_django_file, hmem]
  · intro nm ht hm ho
    have hmem : nm ∈ w.stored := by simpa using hm
    simp [open_as_django_file, ht, ho, hmem]

/-- C6 witness: on the concrete world the logo read yields the stored
file wrapped as a File; the open-behavior cases at concrete names. -/
theorem C6_file_read_witness :
    AppSettingDict.getitem envTest wTest "shop.config.logo" =
      Except.ok (open_as_django_file envTest wTest.stored
        (extract_storage_value (PyVal.str "app_settings/shop/config/logo/old.png"))) ∧
    open_as_django_file envTest wTest.stored PyVal.none = PyVal.none ∧
    open_as_django_file envTest wTest.stored (PyVal.str "gone.png") = PyVal.none ∧
    open_as_django_file envTest wTest.stored
      (PyVal.str "app_settings/shop/config/logo/old.png") =
      PyVal.file "app_settings/shop/config/logo/old.png" := by
  have h := C6_file_read envTest wTest "shop.config.logo" "shop" "config" "logo"
    { groupName := "shop.config", name := "logo",
      value := PyVal.str "app_settings/shop/config/logo/old.png" } rfl rfl rfl
  exact ⟨h.1, h.2.2.2.1 PyVal.none rfl, h.2.2.2.2.2.1 "gone.png" rfl,
    h.2.2.2.2.2.2 "app_settings/shop/config/logo/old.png" rfl rfl rfl⟩

/-- The post-split body of __getitem__ depends on the label argument
only inside the KeyError payload, so its successful results are
label-independent. -/
lemma getitemCore_ok_iff (env : Env) (w : World) (g n l1 l2 : String) (v : PyVal) :
    AppSettingDict.getitemCore env w g n l1 = Except.ok v ↔
    AppSettingDict.getitemCore env w g n l2 = Except.ok v := by
  unfold AppSettingDict.getitemCore
  cases hr : lookupRow env w.db g n with
  | ok r => exact Iff.rfl
  | error e => cases e <;> simp

/-- C3: the store is keyed by (group_name, name): a successful lookup
returns the unique row whose group_name is "app.model" and whose name
is "setting"; two labels splitting to the same pair read the same
value; and a successful write changes the table only at that key and
presupposes exactly one matching row. -/
theorem C3_keyed_by_group_and_name :
    (∀ db g n r, dbGet db g n = Except.ok r →
       dbMatches g n r = true ∧ r ∈ db ∧ (db.filter (dbMatches g n)).length = 1) ∧
    (∀ env w l1 l2 a1 m1 s1 a2 m2 s2 v,
       splitLabel l1 = Option.some (a1, m1, s1) →
       splitLabel l2 = Option.some (a2, m2, s2) →
       a1 ++ "." ++ m1 = a2 ++ "." ++ m2 → s1 = s2 →
       (AppSettingDict.getitem env w l1 = Except.ok v ↔
        AppSettingDict.getitem env w l2 = Except.ok v)) ∧
    (∀ env w label a m s value w2,
       splitLabel label = Option.some (a, m, s) →
       AppSettingDict.setitem env w label value = (w2, Except.ok ()) →
       (∃ nv, w2.db = dbSet w.db (a ++ "." ++ m) s nv) ∧
       (w.db.filter (dbMatches (a ++ "." ++ m) s)).length = 1) := by
  refine ⟨fun db g n r h => dbGet_ok_unique h, ?_, ?_⟩
  · intro env w l1 l2 a1 m1 s1 a2 m2 s2 v h1 h2 hg hs
    have e1 : AppSettingDict.getitem env w l1 =
        AppSettingDict.getitemCore env w (a1 ++ "." ++ m1) s1 l1 := by
      simp [AppSettingDict.getitem, h1]
    have e2 : AppSettingDict.getitem env w l2 =
        AppSettingDict.getitemCore env w (a2 ++ "." ++ m2) s2 l2 := by
      simp [AppSettingDict.getitem, h2]
    rw [e1, e2, hg, hs]
    exact getitemCore_ok_iff env w (a2 ++ "." ++ m2) s2 l1 l2 v
  · intro env w label a m s value w2 hsplit hset
    simp only [AppSettingDict.setitem, hsplit] at hset
    cases hr : lookupRow env w.db (a ++ "." ++ m) s with
    | error e =>
      rw [hr] at hset
      simp [Prod.ext_iff] at hset
    | ok setting =>
      rw [hr] at hset
      have huniq := dbGet_ok_unique (lookupRow_ok hr).2
      cases hu : AppSettingDict.isNewUpload value with
      | false =>
        simp only [hu, Bool.false_eq_true, if_false] at hset
        have hdb := congrArg (fun p => (Prod.fst p).db) hset
        exact ⟨⟨value, by simpa using hdb.symm⟩, huniq.2.2⟩
      | true =>
        simp only [hu, if_true] at hset
        cases hsv : storageSave env (delete_storage_name env w.stored
            (extract_storage_value setting.value))
            (storage_path_for a m s (AppSettingDict.fileNameOf value)) with
        | error e =>
          rw [hsv] at hset
          simp [Prod.ext_iff] at hset
        | ok p =>
          rcases p with ⟨saved, stored2⟩
          rw [hsv] at hset
          have hdb := congrArg (fun q => (Prod.fst q).db) hset
          exact ⟨⟨PyVal.str saved, by simpa using hdb.symm⟩, huniq.2.2⟩

/-- C3 witness: writing then reading the title through two labels that
split identically, the unique-row properties at the concrete table. -/
theorem C3_keyed_by_group_and_name_witness :
    (dbMatches "shop.config" "title"
       ⟨"shop.config", "title", PyVal.str "Hello"⟩ = true ∧
     (⟨"shop.config", "title", PyVal.str "Hello"⟩ : SettingRow) ∈ wTest.db ∧
     (wTest.db.filter (dbMatches "shop.config" "title")).length = 1) ∧
    (AppSettingDict.getitem envTest wTest "shop.config.title" =
        Except.ok (PyVal.str "Hello") ↔
     AppSettingDict.getitem envTest wTest "shop.config.title" =
        Except.ok (PyVal.str "Hello")) ∧
    ((∃ nv, (AppSettingDict.setitem envTest wTest "shop.config.title"
        (PyVal.str "Bye")).1.db = dbSet wTest.db "shop.config" "title" nv) ∧
     (wTest.db.filter (dbMatches "shop.config" "title")).length = 1) :=
  ⟨C3_keyed_by_group_and_name.1 wTest.db "shop.config" "title"
     ⟨"shop.config", "title", PyVal.str "Hello"⟩ rfl,
   C3_keyed_by_group_and_name.2.1 envTest wTest "shop.config.title" "shop.config.title"
     "shop" "config" "title" "shop" "config" "title" (PyVal.str "Hello") rfl rfl rfl rfl,
   C3_keyed_by_group_and_name.2.2 envTest wTest "shop.config.title" "shop" "config" "title"
     (PyVal.str "Bye")
     (AppSettingDict.setitem envTest wTest "shop.config.title" (PyVal.str "Bye")).1 rfl rfl⟩

/-- C1: the binary storage lifecycle of __setitem__ and the admin's
FileField mapping: a newly uploaded File deletes the previously stored
name, saves under the computed storage path and stores the name the
storage returned; a falsy value on a FileField setting deletes the old
file and stores the falsy value; and save_model maps a cleaned
FileField value of False to a clear (None written through the
accessor) while None and the empty string leave the stored value
untouched. -/
theorem C1_storage_lifecycle :
    (∀ (env : Env) w label a m s row fname,
       splitLabel label = Option.some (a, m, s) →
       lookupRow env w.db (a ++ "." ++ m) s = Except.ok row →
       env.saveRaises (storage_path_for a m s fname) = false →
       AppSettingDict.setitem env w label (PyVal.file fname) =
         ({ db := dbSet w.db (a ++ "." ++ m) s
              (PyVal.str (env.saveName (storage_path_for a m s fname))),
            groups := touch_last_modified env w.groups row.groupName,
            stored := env.saveName (storage_path_for a m s fname) ::
              delete_storage_name env w.stored (extract_storage_value row.value) },
          Except.ok ())) ∧
    (∀ (env : Env) w label a m s row value,
       splitLabel label = Option.some (a, m, s) →
       lookupRow env w.db (a ++ "." ++ m) s = Except.ok row →
       truthy value = false →
       AppSettingDict.isNewUpload value = false →
       is_file_setting env (a ++ "." ++ m) s = true →
       AppSettingDict.setitem env w label value =
         ({ db := dbSet w.db (a ++ "." ++ m) s value,
            groups := touch_last_modified env w.groups row.groupName,
            stored := delete_storage_name env w.stored (extract_storage_value row.value) },
          Except.ok ())) ∧
    (∀ (env : Env) (ctx : SettingGroupAdmin.AdminCtx) (g f : String)
       (rest : List (String × PyVal)) (w : World),
       ctx.internalFields.contains f = false →
       ctx.meta.get_field f = Except.ok FieldKind.fileField →
       (SettingGroupAdmin.save_model env ctx g ((f, PyVal.bool false) :: rest) w =
          (match AppSettingDict.setitem env w (g ++ "." ++ f) PyVal.none with
           | (w2, Except.ok _) => SettingGroupAdmin.save_model env ctx g rest w2
           | (w2, Except.error e) => (w2, Except.error e))) ∧
       (SettingGroupAdmin.save_model env ctx g ((f, PyVal.none) :: rest) w =
          SettingGroupAdmin.save_model env ctx g rest w) ∧
       (SettingGroupAdmin.save_model env ctx g ((f, PyVal.str "") :: rest) w =
          SettingGroupAdmin.save_model env ctx g rest w)) := by
  refine ⟨?_, ?_, ?_⟩
  · intro env w label a m s row fname hsplit hr hsr
    simp only [AppSettingDict.setitem, hsplit]
    rw [hr]
    simp [AppSettingDict.isNewUpload, AppSettingDict.fileNameOf, storageSave, hsr]
  · intro env w label a m s row value hsplit hr ht hu hf
    simp only [AppSettingDict.setitem, hsplit]
    rw [hr]
    simp [hu, ht, hf]
  · intro env ctx g f rest w hint hfield
    have hmem : f ∉ ctx.internalFields := by simpa using hint
    refine ⟨?_, ?_, ?_⟩
    · simp [SettingGroupAdmin.save_model, hmem, hfield]
    · simp [SettingGroupAdmin.save_model, hmem, hfield, truthy]
    · simp [SettingGroupAdmin.save_model, hmem, hfield, truthy,
        show "".isEmpty = true from rfl]

/-- C1 witness: on the concrete world, uploading new.png deletes the
old logo file and stores the saved name; writing None deletes the old
file and stores None; save_model maps False to that clear and leaves
the world untouched for None and the empty string. -/
theorem C1_storage_lifecycle_witness :
    AppSettingDict.setitem envTest wTest "shop.config.logo" (PyVal.file "new.png") =
      ({ db := [ ⟨"shop.config", "logo",
                   PyVal.str "app_settings/shop/config/logo/new.png"⟩,
                 ⟨"shop.config", "title", PyVal.str "Hello"⟩ ],
         groups := [ ⟨"shop.config", 7⟩ ],
         stored := ["app_settings/shop/config/logo/new.png"] }, Except.ok ()) ∧
    AppSettingDict.setitem envTest wTest "shop.config.logo" PyVal.none =
      ({ db := [ ⟨"shop.config", "logo", PyVal.none⟩,
                 ⟨"shop.config", "title", PyVal.str "Hello"⟩ ],
         groups := [ ⟨"shop.config", 7⟩ ],
         stored := [] }, Except.ok ()) ∧
    SettingGroupAdmin.save_model envTest ctxTest "shop.config"
        [("logo", PyVal.bool false)] wTest =
      ({ db := [ ⟨"shop.config", "logo", PyVal.none⟩,
                 ⟨"shop.config", "title", PyVal.str "Hello"⟩ ],
         groups := [ ⟨"shop.config", 7⟩ ],
         stored := [] }, Except.ok ()) ∧
    SettingGroupAdmin.save_model envTest ctxTest "shop.config"
        [("logo", PyVal.none)] wTest = (wTest, Except.ok ()) ∧
    SettingGroupAdmin.save_model envTest ctxTest "shop.config"
        [("logo", PyVal.str "")] wTest = (wTest, Except.ok ()) := by
  refine ⟨?_, ?_, ?_, ?_, ?_⟩
  · exact (C1_storage_lifecycle.1 envTest wTest "shop.config.logo" "shop" "config" "logo"
      ⟨"shop.config", "logo", PyVal.str "app_settings/shop/config/logo/old.png"⟩
      "new.png" rfl rfl rfl).trans rfl
  · exact (C1_storage_lifecycle.2.1 envTest wTest "shop.config.logo" "shop" "config" "logo"
      ⟨"shop.config", "logo", PyVal.str "app_settings/shop/config/logo/old.png"⟩
      PyVal.none rfl rfl rfl rfl rfl).trans rfl
  · exact ((C1_storage_lifecycle.2.2 envTest ctxTest "shop.config" "logo" []
      wTest rfl rfl).1).trans rfl
  · exact ((C1_storage_lifecycle.2.2 envTest ctxTest "shop.config" "logo" []
      wTest rfl rfl).2.1).trans rfl
  · exact ((C1_storage_lifecycle.2.2 envTest ctxTest "shop.config" "logo" []
      wTest rfl rfl).2.2).trans rfl

/-- C8: changeform_view is exactly the transactional wrapping of the
changeform body, and whenever the request fails with an exception the
relational state (settings rows and group rows) is rolled back to its
state at entry; storage effects are what the body performed. -/
theorem C8_changeform_transaction (env : Env) (ctx : SettingGroupAdmin.AdminCtx)
    (g : String) (req : SettingGroupAdmin.Request) (w : World) :
    SettingGroupAdmin.changeform_view env ctx g req w =
      SettingGroupAdmin.atomic w (SettingGroupAdmin.changeform_view_body env ctx g req) ∧
    (∀ e, (SettingGroupAdmin.changeform_view env ctx g req w).2 = Except.error e →
       (SettingGroupAdmin.changeform_view env ctx g req w).1.db = w.db ∧
       (SettingGroupAdmin.changeform_view env ctx g req w).1.groups = w.groups) := by
  refine ⟨rfl, ?_⟩
  intro e he
  unfold SettingGroupAdmin.changeform_view SettingGroupAdmin.atomic at he ⊢
  cases hb : SettingGroupAdmin.changeform_view_body env ctx g req w with
  | mk w2 r =>
    cases r with
    | ok v =>
      rw [hb] at he
      exact Except.noConfusion he
    | error e2 => exact ⟨rfl, rfl⟩

/-- C8 witness: a POST whose save fails mid-way (the logo row is
missing although the group row exists) leaves the relational state
unchanged. -/
theorem C8_changeform_transaction_witness :
    (SettingGroupAdmin.changeform_view envTest ctxTest "shop.config"
       { isPost := true } wGroupsOnly).1.db = wGroupsOnly.db ∧
    (SettingGroupAdmin.changeform_view envTest ctxTest "shop.config"
       { isPost := true } wGroupsOnly).1.groups = wGroupsOnly.groups :=
  (C8_changeform_transaction envTest ctxTest "shop.config"
    { isPost := true } wGroupsOnly).2 PyExc.objectDoesNotExist rfl
